import Mathlib

/-!
# Verification of the practracker best-practices linter

Shallow embedding of `problem.py` (Problem model, ProblemVault) and
`practracker.py` (driver thresholds and per-file metric checks).

Modelling conventions:
* Python strings are `List Char` (`Str` below).
* Python `int` is Lean `Int`; `int(s)` on a string is the partial `pyInt`.
* A raised-and-uncaught `ValueError` is `Except.error`.
* The vault's exception dictionary is a lookup function `Str → Option Problem`.
* `register_problem` prints the problem when it returns `True`; printing is
  modelled by also returning the list of printed problems.  The method only
  reads `self.exceptions`, so it also returns the (unchanged) vault, making
  the absence of mutation a provable statement rather than a modelling choice.
* The `metrics` and `util` modules are external collaborators (not part of the
  core sources); their results (line counts, include counts, per-function line
  counts) are passed to the driver functions as data.
-/

set_option linter.unusedVariables false

/-- Python strings are modelled as lists of characters. -/
abbrev Str := List Char

/-- Python's `ValueError` (raised by `int()` on a bad literal; also raised by
tuple unpacking of a wrong-arity list, where the source catches it). -/
inductive ValueError
  | mk
deriving DecidableEq

/-- Python `str.split(sep)` for a one-character separator: split at every
occurrence of `sep`, keeping empty fields.  Models `exception_str.split(" ")`. -/
def pySplit (sep : Char) : List Char → List (List Char)
  | [] => [[]]
  | c :: rest =>
    if c = sep then [] :: pySplit sep rest
    else
      match pySplit sep rest with
      | [] => [[c]]
      | f :: fs => (c :: f) :: fs

/-- The six ASCII whitespace characters stripped by Python's `int()`:
space, tab, newline, carriage return, vertical tab, form feed. -/
def isPySpace (c : Char) : Bool :=
  c = ' ' || c = '\t' || c = '\n' || c = '\r' || c = Char.ofNat 11 || c = Char.ofNat 12

/-- Python `str.strip()` restricted to ASCII whitespace. -/
def pyStrip (s : Str) : Str :=
  ((s.dropWhile isPySpace).reverse.dropWhile isPySpace).reverse

/-- Value of an ASCII decimal digit character, `none` for any other character. -/
def digitVal (c : Char) : Option Nat :=
  if '0' ≤ c ∧ c ≤ '9' then some (c.toNat - 48) else none

/-- Accumulating reader of a digit string (most significant digit first). -/
def digitsToNatAux : Nat → List Char → Option Nat
  | acc, [] => some acc
  | acc, c :: rest =>
    match digitVal c with
    | some d => digitsToNatAux (10 * acc + d) rest
    | none => none

/-- Reads a nonempty all-digit string as a natural number, `none` otherwise. -/
def digitsToNat : Str → Option Nat
  | [] => none
  | c :: rest => digitsToNatAux 0 (c :: rest)

/-- Python `int(s)` on a string: optional surrounding ASCII whitespace, optional
sign, one or more ASCII decimal digits; `none` where Python raises `ValueError`.
(Python's underscore digit grouping and non-ASCII digits are not modelled; no
baseline-format claim involves them.) -/
def pyIntCore : Str → Option Int
  | [] => none
  | c :: rest =>
    if c = '+' then (digitsToNat rest).map Int.ofNat
    else if c = '-' then (digitsToNat rest).map (fun n => -(n : Int))
    else (digitsToNat (c :: rest)).map Int.ofNat

/-- Python `int(s)`: strip, then read sign and digits. -/
def pyInt (s : Str) : Option Int := pyIntCore (pyStrip s)

/-- Decimal digits of `n`, most significant first. -/
def natToChars (n : Nat) : List Char :=
  if n < 10 then [Char.ofNat (48 + n)]
  else natToChars (n / 10) ++ [Char.ofNat (48 + n % 10)]
decreasing_by exact Nat.div_lt_self (by omega) (by omega)

/-- Python `str(v)` for an int (as produced by `"%s" % metric_value`):
a minus sign for negatives, then decimal digits. -/
def intRepr (v : Int) : Str :=
  if v < 0 then '-' :: natToChars v.natAbs else natToChars v.toNat

/-- Python `str.split()` with no separator: split on runs of whitespace,
discarding empty fields.  Used to state what the "whitespace-separated fields"
of a line are. -/
def pyWsSplitAux (cur : List Char) : List Char → List (List Char)
  | [] => if cur.isEmpty then [] else [cur.reverse]
  | c :: rest =>
    if isPySpace c then
      if cur.isEmpty then pyWsSplitAux [] rest
      else cur.reverse :: pyWsSplitAux [] rest
    else pyWsSplitAux (c :: cur) rest

/-- Python `str.split()` with no separator. -/
def pyWsSplit (s : Str) : List Str := pyWsSplitAux [] s

/-- `s.startswith(pre)`. -/
def pyStartswith : Str → Str → Bool
  | _, [] => true
  | [], _ :: _ => false
  | c :: cs, d :: ds => c == d && pyStartswith cs ds

/-- `problem.Problem`: one detected violation.  The Python constructor stores
`problem_location`, `int(metric_value)` and `problem_type`.  On the driver path
the metric argument is already an int (where `int()` is the identity); on the
baseline-parsing path it is a string, handled by `fileSizeProblemOfStr` etc.
below, whose `int()` conversion can raise `ValueError`. -/
structure Problem where
  problem_type : Str
  problem_location : Str
  metric_value : Int
deriving DecidableEq

/-- The `"file-size"` kind tag. -/
def fileSizeTag : Str := "file-size".data

/-- The `"include-count"` kind tag. -/
def includeCountTag : Str := "include-count".data

/-- The `"function-size"` kind tag. -/
def functionSizeTag : Str := "function-size".data

/-- `Problem.is_worse_than`: strictly greater metric value. -/
def Problem.is_worse_than (p other_problem : Problem) : Bool :=
  decide (p.metric_value > other_problem.metric_value)

/-- `Problem.key`: `"%s:%s" % (problem_location, problem_type)`. -/
def Problem.key (p : Problem) : Str :=
  p.problem_location ++ ':' :: p.problem_type

/-- `Problem.__str__`:
`"problem %s %s %s" % (problem_type, problem_location, metric_value)`. -/
def Problem.toStr (p : Problem) : Str :=
  "problem".data ++ ' ' :: p.problem_type ++ ' ' :: p.problem_location
    ++ ' ' :: intRepr p.metric_value

/-- `FileSizeProblem(location, metric)` with an int metric (driver path). -/
def FileSizeProblem (problem_location : Str) (metric_value : Int) : Problem :=
  ⟨fileSizeTag, problem_location, metric_value⟩

/-- `IncludeCountProblem(location, metric)` with an int metric (driver path). -/
def IncludeCountProblem (problem_location : Str) (metric_value : Int) : Problem :=
  ⟨includeCountTag, problem_location, metric_value⟩

/-- `FunctionSizeProblem(location, metric)` with an int metric (driver path). -/
def FunctionSizeProblem (problem_location : Str) (metric_value : Int) : Problem :=
  ⟨functionSizeTag, problem_location, metric_value⟩

/-- `FileSizeProblem(location, metric)` with a string metric (baseline-parsing
path); `int(metric_value)` raises `ValueError` on a bad literal. -/
def fileSizeProblemOfStr (problem_location metric_value : Str) :
    Except ValueError Problem :=
  match pyInt metric_value with
  | some v => .ok (FileSizeProblem problem_location v)
  | none => .error .mk

/-- `IncludeCountProblem` with a string metric (baseline-parsing path). -/
def includeCountProblemOfStr (problem_location metric_value : Str) :
    Except ValueError Problem :=
  match pyInt metric_value with
  | some v => .ok (IncludeCountProblem problem_location v)
  | none => .error .mk

/-- `FunctionSizeProblem` with a string metric (baseline-parsing path). -/
def functionSizeProblemOfStr (problem_location metric_value : Str) :
    Except ValueError Problem :=
  match pyInt metric_value with
  | some v => .ok (FunctionSizeProblem problem_location v)
  | none => .error .mk

/-- `get_old_problem_from_exception_str`: split the line on single spaces
(`split(" ")`); a line that does not split into exactly four fields returns
`None` (the unpacking `ValueError` is caught); an unrecognised kind tag returns
`None`; otherwise the kind's constructor runs outside the `try`, so a bad
metric literal raises an uncaught `ValueError` (`Except.error`). -/
def get_old_problem_from_exception_str (exception_str : Str) :
    Except ValueError (Option Problem) :=
  match pySplit ' ' exception_str with
  | [_, problem_type, problem_location, metric_value] =>
    if problem_type = fileSizeTag then
      (fileSizeProblemOfStr problem_location metric_value).map some
    else if problem_type = includeCountTag then
      (includeCountProblemOfStr problem_location metric_value).map some
    else if problem_type = functionSizeTag then
      (functionSizeProblemOfStr problem_location metric_value).map some
    else .ok none
  | _ => .ok none

/-- `ProblemVault`: the exception dictionary `{ problem.key() : Problem }`,
modelled as a lookup function. -/
structure ProblemVault where
  exceptions : Str → Option Problem

/-- The vault right after `__init__` when the exception file is missing
(`IOError` caught, "No exception file provided"): empty dictionary. -/
def emptyVault : ProblemVault := ⟨fun _ => none⟩

/-- Python dict assignment `d[k] = p`. -/
def dictInsert (k : Str) (p : Problem) (d : Str → Option Problem) :
    Str → Option Problem :=
  fun k' => if k' = k then some p else d k'

/-- `ProblemVault.register_exceptions`: iterate the baseline lines in order,
skip lines that parse to `None`, insert parsed problems keyed by `key()`
(a later line with the same key overwrites an earlier one); an uncaught
`ValueError` from a line aborts the load. -/
def ProblemVault.register_exceptions (v : ProblemVault) :
    List Str → Except ValueError ProblemVault
  | [] => .ok v
  | line :: rest =>
    match get_old_problem_from_exception_str line with
    | .error e => .error e
    | .ok none => v.register_exceptions rest
    | .ok (some p) =>
      ProblemVault.register_exceptions ⟨dictInsert p.key p v.exceptions⟩ rest

/-- `ProblemVault.__init__`: a missing/unreadable exception file (`IOError`) is
caught and leaves the dictionary empty; otherwise the file's lines are
registered (a `ValueError` from a malformed metric literal propagates). -/
def vaultInit (exception_file : Option (List Str)) : Except ValueError ProblemVault :=
  match exception_file with
  | none => .ok emptyVault
  | some lines => emptyVault.register_exceptions lines

/-- `ProblemVault.register_problem`: returns (return value, printed problems,
the vault as left by the call — the method body only reads `self.exceptions`). -/
def ProblemVault.register_problem (v : ProblemVault) (p : Problem) :
    Bool × List Problem × ProblemVault :=
  match v.exceptions p.key with
  | none => (true, [p], v)
  | some old => if p.is_worse_than old then (true, [p], v) else (false, [], v)

/-- A sequence of `register_problem` calls, as the driver performs during the
scan phase: collects each call's return value and threads the vault. -/
def registerSeq (v : ProblemVault) : List Problem → List Bool × ProblemVault
  | [] => ([], v)
  | p :: ps =>
    let r := v.register_problem p
    let rest := registerSeq r.2.2 ps
    (r.1 :: rest.1, rest.2)

/-- `MAX_FILE_SIZE` (lines). -/
def MAX_FILE_SIZE : Nat := 3000

/-- `MAX_FUNCTION_SIZE` (lines). -/
def MAX_FUNCTION_SIZE : Nat := 100

/-- `MAX_INCLUDE_COUNT`. -/
def MAX_INCLUDE_COUNT : Nat := 50

/-- `consider_file_size`: `metrics.get_file_len(f)` is an external collaborator;
its result, a line count, is passed in as `file_size`. -/
def consider_file_size (v : ProblemVault) (fname : Str) (file_size : Nat) :
    Bool × List Problem × ProblemVault :=
  if file_size > MAX_FILE_SIZE then
    v.register_problem (FileSizeProblem fname file_size)
  else (false, [], v)

/-- `consider_includes`: `metrics.get_include_count(f)` is external; its result
is passed in as `include_count`. -/
def consider_includes (v : ProblemVault) (fname : Str) (include_count : Nat) :
    Bool × List Problem × ProblemVault :=
  if include_count > MAX_INCLUDE_COUNT then
    v.register_problem (IncludeCountProblem fname include_count)
  else (false, [], v)

/-- The `for name, lines in metrics.get_function_lines(f)` loop of
`consider_function_size`, threading `found_new_issues` (`|=`), the printed
output and the vault. -/
def consider_function_size_loop (fname : Str) (acc : Bool) (out : List Problem)
    (v : ProblemVault) : List (Str × Nat) → Bool × List Problem × ProblemVault
  | [] => (acc, out, v)
  | (name, lines) :: rest =>
    if lines ≤ MAX_FUNCTION_SIZE then
      consider_function_size_loop fname acc out v rest
    else
      let p := FunctionSizeProblem (fname ++ ':' :: name ++ "()".data) lines
      let r := v.register_problem p
      consider_function_size_loop fname (acc || r.1) (out ++ r.2.1) r.2.2 rest

/-- `consider_function_size`: `metrics.get_function_lines(f)` is external; its
result, the list of (function name, line count) pairs, is passed in. -/
def consider_function_size (v : ProblemVault) (fname : Str)
    (function_lines : List (Str × Nat)) : Bool × List Problem × ProblemVault :=
  consider_function_size_loop fname false [] v function_lines

/-- `consider_metrics_for_file`: strip `TOR_TOPDIR` (passed as `topdir`) from
the front of the filename, then run the three metric checks in order, OR-ing
their results with `|=` and concatenating their printed output. -/
def consider_metrics_for_file (topdir : Str) (v : ProblemVault) (fname : Str)
    (file_size include_count : Nat) (function_lines : List (Str × Nat)) :
    Bool × List Problem × ProblemVault :=
  let fname := if pyStartswith fname topdir then fname.drop topdir.length else fname
  let r1 := consider_file_size v fname file_size
  let r2 := consider_includes r1.2.2 fname include_count
  let r3 := consider_function_size r2.2.2 fname function_lines
  (r1.1 || r2.1 || r3.1, r1.2.1 ++ r2.2.1 ++ r3.2.1, r3.2.2)

/-- Decidable equality for `Except` results (used to evaluate concrete runs). -/
instance {ε α : Type} [DecidableEq ε] [DecidableEq α] : DecidableEq (Except ε α) :=
  fun x y =>
    match x, y with
    | .ok a, .ok b =>
      if h : a = b then .isTrue (by rw [h]) else .isFalse (fun hh => h (Except.ok.inj hh))
    | .error a, .error b =>
      if h : a = b then .isTrue (by rw [h]) else .isFalse (fun hh => h (Except.error.inj hh))
    | .ok _, .error _ => .isFalse (fun hh => Except.noConfusion hh)
    | .error _, .ok _ => .isFalse (fun hh => Except.noConfusion hh)

/-! ## Infrastructure lemmas -/

theorem pySplit_no_sep {sep : Char} {l : List Char} (h : sep ∉ l) :
    pySplit sep l = [l] := by
  induction l with
  | nil => rfl
  | cons c rest ih =>
    have hc : ¬ c = sep := fun e => h (e ▸ List.mem_cons_self c rest)
    have hr := ih (fun hm => h (List.mem_cons_of_mem c hm))
    simp [pySplit, hc, hr]

theorem pySplit_append_sep {sep : Char} {xs : List Char} (h : sep ∉ xs)
    (ys : List Char) :
    pySplit sep (xs ++ sep :: ys) = xs :: pySplit sep ys := by
  induction xs with
  | nil => simp [pySplit]
  | cons c rest ih =>
    have hc : ¬ c = sep := fun e => h (e ▸ List.mem_cons_self c rest)
    have hr := ih (fun hm => h (List.mem_cons_of_mem c hm))
    simp [pySplit, hc, hr]

theorem pySplit_four_fields {a b c d : Str} (ha : ' ' ∉ a) (hb : ' ' ∉ b)
    (hc : ' ' ∉ c) (hd : ' ' ∉ d) :
    pySplit ' ' (a ++ ' ' :: (b ++ ' ' :: (c ++ ' ' :: d))) = [a, b, c, d] := by
  rw [pySplit_append_sep ha, pySplit_append_sep hb, pySplit_append_sep hc,
    pySplit_no_sep hd]

theorem dropWhile_eq_self_of_none {p : Char → Bool} {l : List Char}
    (h : ∀ c ∈ l, p c = false) : l.dropWhile p = l := by
  cases l with
  | nil => rfl
  | cons c rest => simp [List.dropWhile_cons, h c (List.mem_cons_self c rest)]

theorem pyStrip_eq_self {l : Str} (h : ∀ c ∈ l, isPySpace c = false) :
    pyStrip l = l := by
  unfold pyStrip
  rw [dropWhile_eq_self_of_none h,
    dropWhile_eq_self_of_none (fun c hm => h c (List.mem_reverse.mp hm)),
    List.reverse_reverse]

theorem digit_char_bound {m : Nat} (h : m < 10) :
    48 ≤ (Char.ofNat (48 + m)).toNat ∧ (Char.ofNat (48 + m)).toNat ≤ 57 := by
  interval_cases m <;> decide

theorem natToChars_digits : ∀ n : Nat, ∀ c ∈ natToChars n,
    48 ≤ c.toNat ∧ c.toNat ≤ 57 := by
  intro n
  induction n using Nat.strong_induction_on with
  | _ n ih =>
    intro c hc
    rw [natToChars] at hc
    by_cases h : n < 10
    · simp only [if_pos h, List.mem_singleton] at hc
      exact hc ▸ digit_char_bound h
    · simp only [if_neg h, List.mem_append, List.mem_singleton] at hc
      rcases hc with hc | hc
      · exact ih (n / 10) (Nat.div_lt_self (by omega) (by omega)) c hc
      · exact hc ▸ digit_char_bound (Nat.mod_lt n (by omega))

theorem isPySpace_false_of_digit {c : Char} (h : 48 ≤ c.toNat ∧ c.toNat ≤ 57) :
    isPySpace c = false := by
  unfold isPySpace
  simp only [Bool.or_eq_false_iff, decide_eq_false_iff_not]
  refine ⟨⟨⟨⟨⟨?_, ?_⟩, ?_⟩, ?_⟩, ?_⟩, ?_⟩ <;>
    · intro e
      subst e
      exact absurd h (by decide)

theorem natToChars_ne_nil (n : Nat) : natToChars n ≠ [] := by
  rw [natToChars]
  by_cases h : n < 10 <;> simp [h]

theorem natToChars_not_space {n : Nat} : ∀ c ∈ natToChars n, isPySpace c = false :=
  fun c hc => isPySpace_false_of_digit (natToChars_digits n c hc)

theorem intRepr_not_space (v : Int) : ∀ c ∈ intRepr v, isPySpace c = false := by
  intro c hc
  unfold intRepr at hc
  by_cases h : v < 0
  · simp only [if_pos h, List.mem_cons] at hc
    rcases hc with hc | hc
    · subst hc; decide
    · exact natToChars_not_space c hc
  · simp only [if_neg h] at hc
    exact natToChars_not_space c hc

theorem digitVal_of_digit {m : Nat} (h : m < 10) :
    digitVal (Char.ofNat (48 + m)) = some m := by
  interval_cases m <;> decide

theorem digitsToNatAux_append (xs ys : List Char) : ∀ acc : Nat,
    digitsToNatAux acc (xs ++ ys) =
      (digitsToNatAux acc xs).bind (fun a => digitsToNatAux a ys) := by
  induction xs with
  | nil => intro acc; rfl
  | cons c rest ih =>
    intro acc
    simp only [List.cons_append, digitsToNatAux]
    cases digitVal c with
    | none => rfl
    | some d => exact ih _

theorem digits_step_arith (acc K q r n : Nat) (h : 10 * q + r = n) :
    10 * (acc * K + q) + r = acc * (K * 10) + n := by
  subst h
  ring

theorem digitsToNatAux_natToChars : ∀ n acc : Nat,
    digitsToNatAux acc (natToChars n) =
      some (acc * 10 ^ (natToChars n).length + n) := by
  intro n
  induction n using Nat.strong_induction_on with
  | _ n ih =>
    intro acc
    rw [natToChars]
    by_cases h : n < 10
    · simp only [if_pos h, digitsToNatAux, digitVal_of_digit h, List.length_cons,
        List.length_nil]
      congr 1
      simp only [Nat.zero_add, pow_one]
      omega
    · have hlt : n / 10 < n := Nat.div_lt_self (by omega) (by omega)
      rw [if_neg h, digitsToNatAux_append, ih (n / 10) hlt acc]
      show digitsToNatAux (acc * 10 ^ (natToChars (n / 10)).length + n / 10)
          [Char.ofNat (48 + n % 10)] = _
      simp only [digitsToNatAux, digitVal_of_digit (Nat.mod_lt n (by omega)),
        List.length_append, List.length_cons, List.length_nil]
      congr 1
      rw [show (natToChars (n / 10)).length + (0 + 1) =
        (natToChars (n / 10)).length + 1 by omega, pow_succ]
      exact digits_step_arith acc (10 ^ (natToChars (n / 10)).length) (n / 10)
        (n % 10) n (Nat.div_add_mod n 10)

theorem digitsToNat_natToChars (n : Nat) : digitsToNat (natToChars n) = some n := by
  obtain ⟨c, cs, hc⟩ := List.exists_cons_of_ne_nil (natToChars_ne_nil n)
  rw [hc, digitsToNat, ← hc, digitsToNatAux_natToChars]
  simp

theorem pyIntCore_neg (rest : Str) :
    pyIntCore ('-' :: rest) = (digitsToNat rest).map (fun n => -(n : Int)) := rfl

theorem pyIntCore_digit {c : Char} (rest : Str) (h48 : 48 ≤ c.toNat) :
    pyIntCore (c :: rest) = (digitsToNat (c :: rest)).map Int.ofNat := by
  have h1 : ¬ c = '+' := fun e => absurd h48 (by rw [e]; decide)
  have h2 : ¬ c = '-' := fun e => absurd h48 (by rw [e]; decide)
  rw [show pyIntCore (c :: rest) =
      (if c = '+' then (digitsToNat rest).map Int.ofNat
       else if c = '-' then (digitsToNat rest).map (fun n => -(n : Int))
       else (digitsToNat (c :: rest)).map Int.ofNat) from rfl,
    if_neg h1, if_neg h2]

theorem pyInt_intRepr (v : Int) : pyInt (intRepr v) = some v := by
  rw [pyInt, pyStrip_eq_self (intRepr_not_space v)]
  unfold intRepr
  by_cases h : v < 0
  · rw [if_pos h, pyIntCore_neg, digitsToNat_natToChars]
    show some (-(v.natAbs : Int)) = some v
    exact congrArg some (by omega)
  · rw [if_neg h]
    obtain ⟨c, cs, hc⟩ := List.exists_cons_of_ne_nil (natToChars_ne_nil v.toNat)
    have hd := natToChars_digits v.toNat c (hc ▸ List.mem_cons_self c cs)
    rw [hc, pyIntCore_digit cs hd.1, ← hc, digitsToNat_natToChars]
    show some (Int.ofNat v.toNat) = some v
    exact congrArg some (Int.toNat_of_nonneg (by omega))

/-! ## Parser and vault helper lemmas -/

theorem parse_len_ne_four {line : Str} (h : (pySplit ' ' line).length ≠ 4) :
    get_old_problem_from_exception_str line = .ok none := by
  rcases hl : pySplit ' ' line with _ | ⟨a, _ | ⟨b, _ | ⟨c, _ | ⟨d, _ | ⟨e, rest⟩⟩⟩⟩⟩ <;>
    simp_all [get_old_problem_from_exception_str]

theorem parse_four_split {line a t l m : Str}
    (hl : pySplit ' ' line = [a, t, l, m]) :
    get_old_problem_from_exception_str line =
      (if t = fileSizeTag then (fileSizeProblemOfStr l m).map some
       else if t = includeCountTag then (includeCountProblemOfStr l m).map some
       else if t = functionSizeTag then (functionSizeProblemOfStr l m).map some
       else .ok none) := by
  unfold get_old_problem_from_exception_str
  rw [hl]

theorem register_exceptions_skip {line : Str}
    (h : get_old_problem_from_exception_str line = .ok none)
    (v : ProblemVault) (rest : List Str) :
    v.register_exceptions (line :: rest) = v.register_exceptions rest := by
  simp [ProblemVault.register_exceptions, h]

theorem register_exceptions_error {line : Str}
    (h : get_old_problem_from_exception_str line = .error .mk)
    (v : ProblemVault) (rest : List Str) :
    v.register_exceptions (line :: rest) = .error .mk := by
  simp [ProblemVault.register_exceptions, h]

theorem register_exceptions_insert {line : Str} {p : Problem}
    (h : get_old_problem_from_exception_str line = .ok (some p))
    (v : ProblemVault) (rest : List Str) :
    v.register_exceptions (line :: rest) =
      ProblemVault.register_exceptions ⟨dictInsert p.key p v.exceptions⟩ rest := by
  simp [ProblemVault.register_exceptions, h]

theorem register_problem_vault_eq (v : ProblemVault) (p : Problem) :
    (v.register_problem p).2.2 = v := by
  unfold ProblemVault.register_problem
  cases hk : v.exceptions p.key with
  | none => rfl
  | some old =>
    dsimp only
    split <;> rfl

theorem register_problem_out (v : ProblemVault) (p : Problem) :
    (v.register_problem p).2.1 = if (v.register_problem p).1 then [p] else [] := by
  unfold ProblemVault.register_problem
  cases hk : v.exceptions p.key with
  | none => rfl
  | some old =>
    dsimp only
    split <;> rfl

theorem register_problem_out_mem {v : ProblemVault} {p : Problem} :
    ∀ q ∈ (v.register_problem p).2.1, q = p := by
  intro q hq
  rw [register_problem_out] at hq
  rcases ite_eq_or_eq ((v.register_problem p).1) [p] ([] : List Problem) with h | h <;>
    rw [h] at hq <;> simp_all

/-! ## Driver helper lemmas -/

theorem consider_file_size_vault (v : ProblemVault) (fname : Str) (file_size : Nat) :
    (consider_file_size v fname file_size).2.2 = v := by
  unfold consider_file_size
  split
  · exact register_problem_vault_eq v _
  · rfl

theorem consider_includes_vault (v : ProblemVault) (fname : Str) (include_count : Nat) :
    (consider_includes v fname include_count).2.2 = v := by
  unfold consider_includes
  split
  · exact register_problem_vault_eq v _
  · rfl

theorem consider_function_size_loop_spec (fname : Str) (v : ProblemVault) :
    ∀ (funcs : List (Str × Nat)) (acc : Bool) (out : List Problem),
    consider_function_size_loop fname acc out v funcs =
      (acc || funcs.any (fun nl => decide (MAX_FUNCTION_SIZE < nl.2) &&
          (v.register_problem
            (FunctionSizeProblem (fname ++ ':' :: nl.1 ++ "()".data) nl.2)).1),
       out ++ ((funcs.filter (fun nl => decide (MAX_FUNCTION_SIZE < nl.2))).map
          (fun nl => (v.register_problem
            (FunctionSizeProblem (fname ++ ':' :: nl.1 ++ "()".data) nl.2)).2.1)).flatten,
       v) := by
  intro funcs
  induction funcs with
  | nil =>
    intro acc out
    simp [consider_function_size_loop]
  | cons nl rest ih =>
    intro acc out
    obtain ⟨name, lines⟩ := nl
    by_cases h : lines ≤ MAX_FUNCTION_SIZE
    · have hc : decide (MAX_FUNCTION_SIZE < lines) = false := by
        simp only [decide_eq_false_iff_not]
        omega
      simp only [consider_function_size_loop, if_pos h, ih, List.any_cons,
        List.filter_cons, hc, Bool.false_and, Bool.false_or]
      simp
    · have hc : decide (MAX_FUNCTION_SIZE < lines) = true := by
        simp only [decide_eq_true_eq]
        omega
      simp only [consider_function_size_loop, if_neg h]
      rw [register_problem_vault_eq, ih]
      simp only [List.any_cons, List.filter_cons, hc, Bool.true_and,
        List.map_cons, List.flatten_cons, Bool.or_assoc, List.append_assoc]
      simp

theorem consider_function_size_spec (v : ProblemVault) (fname : Str)
    (function_lines : List (Str × Nat)) :
    consider_function_size v fname function_lines =
      (function_lines.any (fun nl => decide (MAX_FUNCTION_SIZE < nl.2) &&
          (v.register_problem
            (FunctionSizeProblem (fname ++ ':' :: nl.1 ++ "()".data) nl.2)).1),
       ((function_lines.filter (fun nl => decide (MAX_FUNCTION_SIZE < nl.2))).map
          (fun nl => (v.register_problem
            (FunctionSizeProblem (fname ++ ':' :: nl.1 ++ "()".data) nl.2)).2.1)).flatten,
       v) := by
  rw [consider_function_size, consider_function_size_loop_spec]
  simp

theorem consider_function_size_vault (v : ProblemVault) (fname : Str)
    (function_lines : List (Str × Nat)) :
    (consider_function_size v fname function_lines).2.2 = v := by
  rw [consider_function_size_spec]

theorem consider_metrics_decomp (topdir : Str) (v : ProblemVault) (fname : Str)
    (file_size include_count : Nat) (function_lines : List (Str × Nat)) :
    consider_metrics_for_file topdir v fname file_size include_count function_lines =
      ((consider_file_size v
          (if pyStartswith fname topdir then fname.drop topdir.length else fname)
          file_size).1 ||
       (consider_includes v
          (if pyStartswith fname topdir then fname.drop topdir.length else fname)
          include_count).1 ||
       (consider_function_size v
          (if pyStartswith fname topdir then fname.drop topdir.length else fname)
          function_lines).1,
       (consider_file_size v
          (if pyStartswith fname topdir then fname.drop topdir.length else fname)
          file_size).2.1 ++
       (consider_includes v
          (if pyStartswith fname topdir then fname.drop topdir.length else fname)
          include_count).2.1 ++
       (consider_function_size v
          (if pyStartswith fname topdir then fname.drop topdir.length else fname)
          function_lines).2.1,
       v) := by
  simp only [consider_metrics_for_file]
  rw [consider_file_size_vault, consider_includes_vault, consider_function_size_vault]

/-! ## Key decomposition lemmas -/

theorem takeWhile_append_stop {p : Char → Bool} {xs : List Char}
    (hx : ∀ x ∈ xs, p x = true) {y : Char} (hy : p y = false) (ys : List Char) :
    (xs ++ y :: ys).takeWhile p = xs := by
  induction xs with
  | nil => simp [List.takeWhile_cons, hy]
  | cons c rest ih =>
    simp [List.takeWhile_cons, hx c (List.mem_cons_self c rest),
      ih (fun x hm => hx x (List.mem_cons_of_mem c hm))]

theorem key_parts_eq {l1 t1 l2 t2 : List Char} (h1 : ':' ∉ t1) (h2 : ':' ∉ t2)
    (heq : l1 ++ ':' :: t1 = l2 ++ ':' :: t2) : t1 = t2 ∧ l1 = l2 := by
  have hr := congrArg List.reverse heq
  rw [List.reverse_append, List.reverse_append, List.reverse_cons,
    List.reverse_cons, List.append_assoc, List.append_assoc,
    List.singleton_append, List.singleton_append] at hr
  have hmem1 : ∀ x ∈ t1.reverse, (x != ':') = true := by
    intro x hx
    simp only [bne_iff_ne, ne_eq]
    exact fun e => h1 (e ▸ List.mem_reverse.mp hx)
  have hmem2 : ∀ x ∈ t2.reverse, (x != ':') = true := by
    intro x hx
    simp only [bne_iff_ne, ne_eq]
    exact fun e => h2 (e ▸ List.mem_reverse.mp hx)
  have ht : t1.reverse = t2.reverse := by
    have hw := congrArg (List.takeWhile (fun c => c != ':')) hr
    rwa [takeWhile_append_stop hmem1 (by decide) _,
      takeWhile_append_stop hmem2 (by decide) _] at hw
  refine ⟨List.reverse_injective ht, ?_⟩
  have htail := (List.append_inj hr (by rw [ht])).2
  have : l1.reverse = l2.reverse := by injection htail
  exact List.reverse_injective this

/-! ## Claim theorems -/

/-- C1: `register_problem` returns `True` whenever the problem's identity is
absent from the exception mapping (regardless of its metric value); when a
baseline problem `b` with the same identity exists it returns `True` iff the
fresh problem's metric value is strictly greater than `b`'s (equal values are
not reported). -/
theorem c1_register_problem_ratchet (v : ProblemVault) (p : Problem) :
    (v.exceptions p.key = none → (v.register_problem p).1 = true) ∧
    (∀ b : Problem, v.exceptions p.key = some b →
      ((v.register_problem p).1 = true ↔ p.metric_value > b.metric_value)) := by
  constructor
  · intro h
    unfold ProblemVault.register_problem
    rw [h]
  · intro b hb
    unfold ProblemVault.register_problem Problem.is_worse_than
    rw [hb]
    dsimp only
    by_cases hw : p.metric_value > b.metric_value
    · rw [if_pos (decide_eq_true hw)]
      simp [hw]
    · rw [if_neg (by simpa using hw)]
      simp [hw]

/-- C1 witness: baseline `problem file-size foo.c 3200`; a fresh problem with
value 3300 is reported, one with value 3100 is not, and a problem at an
absent identity with metric 0 is reported. -/
theorem c1_register_problem_ratchet_witness :
    ((ProblemVault.mk (dictInsert (Problem.key ⟨fileSizeTag, "foo.c".data, 3200⟩)
        ⟨fileSizeTag, "foo.c".data, 3200⟩ (fun _ => none))).register_problem
      ⟨fileSizeTag, "foo.c".data, 3300⟩).1 = true ∧
    (((ProblemVault.mk (dictInsert (Problem.key ⟨fileSizeTag, "foo.c".data, 3200⟩)
        ⟨fileSizeTag, "foo.c".data, 3200⟩ (fun _ => none))).register_problem
      ⟨fileSizeTag, "foo.c".data, 3100⟩).1 = true ↔
      (3100 : Int) > (3200 : Int)) ∧
    (emptyVault.register_problem ⟨fileSizeTag, "other.c".data, 0⟩).1 = true :=
  ⟨((c1_register_problem_ratchet _ ⟨fileSizeTag, "foo.c".data, 3300⟩).2
      ⟨fileSizeTag, "foo.c".data, 3200⟩ (by decide)).mpr (by decide),
   (c1_register_problem_ratchet _ ⟨fileSizeTag, "foo.c".data, 3100⟩).2
      ⟨fileSizeTag, "foo.c".data, 3200⟩ (by decide),
   (c1_register_problem_ratchet emptyVault ⟨fileSizeTag, "other.c".data, 0⟩).1 rfl⟩

/-- C9: `register_problem` never modifies the vault's exception mapping: after
any sequence of calls the vault is exactly what the load phase produced, and
every call in the sequence is evaluated against that same unchanged vault. -/
theorem c9_register_problem_no_mutation (v : ProblemVault) (ps : List Problem) :
    (registerSeq v ps).2 = v ∧
    (registerSeq v ps).1 = ps.map (fun p => (v.register_problem p).1) := by
  induction ps with
  | nil => exact ⟨rfl, rfl⟩
  | cons p rest ih =>
    constructor
    · show (registerSeq (v.register_problem p).2.2 rest).2 = v
      rw [register_problem_vault_eq]
      exact ih.1
    · show (v.register_problem p).1 ::
        (registerSeq (v.register_problem p).2.2 rest).1 = _
      rw [register_problem_vault_eq, ih.2, List.map_cons]

/-- C5: a baseline line with 3 or 5 space-separated fields, or with exactly
four fields but an unrecognised kind token, parses to no problem; loading it
completes without error, contributes no entry to the exception mapping, and
leaves the rest of the load unchanged. -/
theorem c5_malformed_lines_skipped (v : ProblemVault) (line : Str)
    (rest : List Str)
    (h : (pySplit ' ' line).length = 3 ∨ (pySplit ' ' line).length = 5 ∨
      (∃ a t l m : Str, pySplit ' ' line = [a, t, l, m] ∧
        t ≠ fileSizeTag ∧ t ≠ includeCountTag ∧ t ≠ functionSizeTag)) :
    get_old_problem_from_exception_str line = .ok none ∧
    v.register_exceptions (line :: rest) = v.register_exceptions rest := by
  have hp : get_old_problem_from_exception_str line = .ok none := by
    rcases h with h | h | ⟨a, t, l, m, hsplit, h1, h2, h3⟩
    · exact parse_len_ne_four (by omega)
    · exact parse_len_ne_four (by omega)
    · rw [parse_four_split hsplit, if_neg h1, if_neg h2, if_neg h3]
  exact ⟨hp, register_exceptions_skip hp v rest⟩

/-- C5 witness: the line `garbage text here` (3 space-separated fields) is
skipped and adds nothing to the load. -/
theorem c5_malformed_lines_skipped_witness :
    get_old_problem_from_exception_str "garbage text here".data = .ok none ∧
    emptyVault.register_exceptions ["garbage text here".data] =
      emptyVault.register_exceptions [] :=
  c5_malformed_lines_skipped emptyVault "garbage text here".data []
    (Or.inl (by decide))

/-- C8: for problems whose kinds are among the three recognised tags, `key()`
produces equal strings iff both the location and the kind are equal (the
`location:kind` string decomposes uniquely), and the metric value never
influences `key()`. -/
theorem c8_key_is_identity (p q : Problem)
    (hp : p.problem_type = fileSizeTag ∨ p.problem_type = includeCountTag ∨
      p.problem_type = functionSizeTag)
    (hq : q.problem_type = fileSizeTag ∨ q.problem_type = includeCountTag ∨
      q.problem_type = functionSizeTag) :
    (p.key = q.key ↔
      p.problem_location = q.problem_location ∧
        p.problem_type = q.problem_type) ∧
    (∀ m : Int, Problem.key ⟨p.problem_type, p.problem_location, m⟩ = p.key) := by
  have hcolon : ∀ t : Str,
      (t = fileSizeTag ∨ t = includeCountTag ∨ t = functionSizeTag) → ':' ∉ t := by
    rintro t (rfl | rfl | rfl) <;> decide
  refine ⟨⟨fun hk => ?_, fun ⟨hl, ht⟩ => ?_⟩, fun m => rfl⟩
  · have hk' : p.problem_location ++ ':' :: p.problem_type =
        q.problem_location ++ ':' :: q.problem_type := hk
    have := key_parts_eq (hcolon _ hp) (hcolon _ hq) hk'
    exact ⟨this.2, this.1⟩
  · rw [Problem.key, Problem.key, hl, ht]

/-- C8 witness: two problems with equal locations but different kinds have
different keys, as the identity law demands. -/
theorem c8_key_is_identity_witness :
    (Problem.key ⟨fileSizeTag, "a.c".data, 1⟩ =
        Problem.key ⟨functionSizeTag, "a.c".data, 2⟩ ↔
      Problem.problem_location ⟨fileSizeTag, "a.c".data, 1⟩ =
          Problem.problem_location ⟨functionSizeTag, "a.c".data, 2⟩ ∧
        Problem.problem_type ⟨fileSizeTag, "a.c".data, 1⟩ =
          Problem.problem_type ⟨functionSizeTag, "a.c".data, 2⟩) :=
  (c8_key_is_identity ⟨fileSizeTag, "a.c".data, 1⟩ ⟨functionSizeTag, "a.c".data, 2⟩
    (Or.inl rfl) (Or.inr (Or.inr rfl))).1

/-- C2 counterexample: the four-field line `problem file-size foo.c abc` has a
recognised kind but a non-integer metric field; parsing it raises an uncaught
`ValueError` and loading a baseline containing it aborts with that error
instead of skipping the line. -/
theorem c2_bad_metric_counterexample :
    get_old_problem_from_exception_str "problem file-size foo.c abc".data =
      .error .mk ∧
    emptyVault.register_exceptions ["problem file-size foo.c abc".data] =
      .error .mk := by
  exact ⟨by decide, register_exceptions_error (by decide) emptyVault []⟩

/-- C2 (amended): a baseline line with exactly four space-separated fields, a
recognised kind tag and a non-integer metric field raises an uncaught
`ValueError` from the `int()` conversion, aborting the load — the line is not
skipped like other malformed lines. -/
theorem c2_bad_metric_raises (v : ProblemVault) (rest : List Str)
    (line a t l m : Str) (hsplit : pySplit ' ' line = [a, t, l, m])
    (ht : t = fileSizeTag ∨ t = includeCountTag ∨ t = functionSizeTag)
    (hm : pyInt m = none) :
    get_old_problem_from_exception_str line = .error .mk ∧
    v.register_exceptions (line :: rest) = .error .mk := by
  have hp : get_old_problem_from_exception_str line = .error .mk := by
    rw [parse_four_split hsplit]
    rcases ht with rfl | rfl | rfl
    · rw [if_pos rfl]
      unfold fileSizeProblemOfStr
      rw [hm]
      rfl
    · rw [if_neg (by decide), if_pos rfl]
      unfold includeCountProblemOfStr
      rw [hm]
      rfl
    · rw [if_neg (by decide), if_neg (by decide), if_pos rfl]
      unfold functionSizeProblemOfStr
      rw [hm]
      rfl
  exact ⟨hp, register_exceptions_error hp v rest⟩

/-- C2 witness: the amended behaviour evaluated on the concrete line
`problem include-count foo.c 12x` inside a longer baseline. -/
theorem c2_bad_metric_raises_witness :
    get_old_problem_from_exception_str "problem include-count foo.c 12x".data =
      .error .mk ∧
    ProblemVault.register_exceptions ⟨fun _ => none⟩
      ["problem include-count foo.c 12x".data, "problem file-size a.c 7".data] =
      .error .mk :=
  c2_bad_metric_raises ⟨fun _ => none⟩ ["problem file-size a.c 7".data]
    "problem include-count foo.c 12x".data "problem".data includeCountTag
    "foo.c".data "12x".data (by decide) (Or.inr (Or.inl rfl)) (by decide)

/-- C3 counterexample: the Problem `(file-size, "a b", 3)` — whose location
contains a space — serialises to a five-field line, so parsing its canonical
text form yields no Problem at all, not an equal Problem. -/
theorem c3_roundtrip_counterexample :
    get_old_problem_from_exception_str
      (Problem.toStr ⟨fileSizeTag, "a b".data, 3⟩) = .ok none ∧
    (Except.ok none : Except ValueError (Option Problem)) ≠
      .ok (some ⟨fileSizeTag, "a b".data, 3⟩) := by
  have h3 : intRepr 3 = ['3'] := by
    rw [intRepr, if_neg (by decide), natToChars]
    decide
  constructor
  · rw [show (⟨fileSizeTag, "a b".data, 3⟩ : Problem).toStr =
        "problem".data ++ ' ' :: fileSizeTag ++ ' ' :: "a b".data
          ++ ' ' :: intRepr 3 from rfl, h3]
    decide
  · decide

/-- C3 (amended): for any Problem whose kind is one of the three recognised
tags and whose location contains no space character, parsing its canonical
text form reconstructs an equal Problem (same kind, location and metric,
for any integer metric value). -/
theorem c3_roundtrip (p : Problem)
    (ht : p.problem_type = fileSizeTag ∨ p.problem_type = includeCountTag ∨
      p.problem_type = functionSizeTag)
    (hl : ' ' ∉ p.problem_location) :
    get_old_problem_from_exception_str p.toStr = .ok (some p) := by
  obtain ⟨t, l, m⟩ := p
  simp only at ht hl
  have ht' : ' ' ∉ t := by rcases ht with rfl | rfl | rfl <;> decide
  have hm' : ' ' ∉ intRepr m := fun hsp =>
    absurd (intRepr_not_space m ' ' hsp) (by decide)
  have hform : Problem.toStr ⟨t, l, m⟩ =
      "problem".data ++ ' ' :: (t ++ ' ' :: (l ++ ' ' :: intRepr m)) := by
    simp [Problem.toStr]
  have hsplit : pySplit ' ' (Problem.toStr ⟨t, l, m⟩) =
      ["problem".data, t, l, intRepr m] := by
    rw [hform]
    exact pySplit_four_fields (by decide) ht' hl hm'
  rw [parse_four_split hsplit]
  rcases ht with rfl | rfl | rfl
  · rw [if_pos rfl]
    unfold fileSizeProblemOfStr
    rw [pyInt_intRepr]
    rfl
  · rw [if_neg (by decide), if_pos rfl]
    unfold includeCountProblemOfStr
    rw [pyInt_intRepr]
    rfl
  · rw [if_neg (by decide), if_neg (by decide), if_pos rfl]
    unfold functionSizeProblemOfStr
    rw [pyInt_intRepr]
    rfl

/-- C3 witness: the round trip evaluated on
`(function-size, "foo.c:bar()", 150)`. -/
theorem c3_roundtrip_witness :
    get_old_problem_from_exception_str
      (Problem.toStr ⟨functionSizeTag, "foo.c:bar()".data, 150⟩) =
      .ok (some ⟨functionSizeTag, "foo.c:bar()".data, 150⟩) :=
  c3_roundtrip ⟨functionSizeTag, "foo.c:bar()".data, 150⟩ (Or.inr (Or.inr rfl))
    (by decide)

/-- C4 counterexample: the baseline line `problem file-size foo.c -5` parses
successfully into a Problem whose metric value is the negative integer -5,
so a baseline line can yield a Problem with a negative metric value. -/
theorem c4_negative_metric_counterexample :
    get_old_problem_from_exception_str "problem file-size foo.c -5".data =
      .ok (some ⟨fileSizeTag, "foo.c".data, -5⟩) ∧
    (⟨fileSizeTag, "foo.c".data, -5⟩ : Problem).metric_value < 0 := by
  exact ⟨by decide, by decide⟩

/-- C4 (amended): every problem reported by the driver's per-file scan has a
non-negative metric value (the driver's metrics are counts); the original
claim's baseline half fails, since a baseline line with a negative metric
field yields a Problem with a negative metric value. -/
theorem c4_driver_metrics_nonneg (topdir : Str) (v : ProblemVault) (fname : Str)
    (file_size include_count : Nat) (function_lines : List (Str × Nat)) :
    ∀ p ∈ (consider_metrics_for_file topdir v fname file_size include_count
      function_lines).2.1, 0 ≤ p.metric_value := by
  intro p hp
  rw [consider_metrics_decomp] at hp
  dsimp only at hp
  rw [List.mem_append, List.mem_append] at hp
  rcases hp with (hp | hp) | hp
  · unfold consider_file_size at hp
    split at hp
    · have := register_problem_out_mem p hp
      subst this
      exact Int.natCast_nonneg file_size
    · simp at hp
  · unfold consider_includes at hp
    split at hp
    · have := register_problem_out_mem p hp
      subst this
      exact Int.natCast_nonneg include_count
    · simp at hp
  · rw [consider_function_size_spec] at hp
    dsimp only at hp
    rw [List.mem_flatten] at hp
    obtain ⟨l', hl', hpl⟩ := hp
    rw [List.mem_map] at hl'
    obtain ⟨nl, hnl, rfl⟩ := hl'
    have := register_problem_out_mem p hpl
    subst this
    exact Int.natCast_nonneg nl.2

/-- C4 witness: the file-size problem reported for a 3200-line file has a
non-negative metric value. -/
theorem c4_driver_metrics_nonneg_witness :
    (0 : Int) ≤ (⟨fileSizeTag, "f.c".data, 3200⟩ : Problem).metric_value :=
  c4_driver_metrics_nonneg [] emptyVault "f.c".data 3200 0 []
    ⟨fileSizeTag, "f.c".data, 3200⟩ (by decide)

/-- C6 counterexample: the line `problem<TAB>file-size foo.c 10` consists of
exactly four whitespace-separated fields with a recognised kind and an integer
metric, yet the parser — which splits on single spaces only — yields no
Problem for it, so it is ignored rather than inserted. -/
theorem c6_whitespace_counterexample :
    pyWsSplit "problem\tfile-size foo.c 10".data =
      ["problem".data, fileSizeTag, "foo.c".data, "10".data] ∧
    pyInt "10".data = some 10 ∧
    get_old_problem_from_exception_str "problem\tfile-size foo.c 10".data =
      .ok none := by
  exact ⟨by decide, by decide, by decide⟩

/-- C6 (amended): the parser splits its input on single space characters:
every line consisting of exactly four fields separated by single spaces, whose
kind token is recognised and whose metric field is accepted by `int()`, yields
a Problem that is inserted into the exception mapping; every line that does
not split into exactly four space-separated fields is ignored. -/
theorem c6_single_space_fields (v : ProblemVault) (rest : List Str)
    (a t l m : Str) (val : Int) (ha : ' ' ∉ a)
    (ht : t = fileSizeTag ∨ t = includeCountTag ∨ t = functionSizeTag)
    (hl : ' ' ∉ l) (hm : ' ' ∉ m) (hval : pyInt m = some val) :
    get_old_problem_from_exception_str (a ++ ' ' :: (t ++ ' ' :: (l ++ ' ' :: m))) =
      .ok (some ⟨t, l, val⟩) ∧
    v.register_exceptions ((a ++ ' ' :: (t ++ ' ' :: (l ++ ' ' :: m))) :: rest) =
      ProblemVault.register_exceptions
        ⟨dictInsert (Problem.key ⟨t, l, val⟩) ⟨t, l, val⟩ v.exceptions⟩ rest ∧
    (∀ line : Str, (pySplit ' ' line).length ≠ 4 →
      get_old_problem_from_exception_str line = .ok none) := by
  have ht' : ' ' ∉ t := by rcases ht with rfl | rfl | rfl <;> decide
  have hsplit := pySplit_four_fields ha ht' hl hm
  have hp : get_old_problem_from_exception_str
      (a ++ ' ' :: (t ++ ' ' :: (l ++ ' ' :: m))) = .ok (some ⟨t, l, val⟩) := by
    rw [parse_four_split hsplit]
    rcases ht with rfl | rfl | rfl
    · rw [if_pos rfl]
      unfold fileSizeProblemOfStr
      rw [hval]
      rfl
    · rw [if_neg (by decide), if_pos rfl]
      unfold includeCountProblemOfStr
      rw [hval]
      rfl
    · rw [if_neg (by decide), if_neg (by decide), if_pos rfl]
      unfold functionSizeProblemOfStr
      rw [hval]
      rfl
  exact ⟨hp, register_exceptions_insert hp v rest,
    fun line h => parse_len_ne_four h⟩

/-- C6 witness: the four space-separated fields `problem file-size foo.c 100`
parse to the expected Problem. -/
theorem c6_single_space_fields_witness :
    get_old_problem_from_exception_str
      ("problem".data ++ ' ' :: (fileSizeTag ++ ' ' ::
        ("foo.c".data ++ ' ' :: "100".data))) =
      .ok (some ⟨fileSizeTag, "foo.c".data, 100⟩) :=
  (c6_single_space_fields emptyVault [] "problem".data fileSizeTag "foo.c".data
    "100".data 100 (by decide) (Or.inl rfl) (by decide) (by decide) (by decide)).1

theorem register_problem_empty (p : Problem) :
    emptyVault.register_problem p = (true, [p], emptyVault) := rfl

theorem flatten_map_singleton {α β : Type} (f : α → β) (l : List α) :
    (l.map (fun x => [f x])).flatten = l.map f := by
  induction l with
  | nil => rfl
  | cons x rest ih => simp [ih]

theorem consider_file_size_empty (fname : Str) (file_size : Nat) :
    consider_file_size emptyVault fname file_size =
      (decide (MAX_FILE_SIZE < file_size),
       if MAX_FILE_SIZE < file_size then [FileSizeProblem fname file_size] else [],
       emptyVault) := by
  unfold consider_file_size
  by_cases h : MAX_FILE_SIZE < file_size
  · rw [if_pos h, if_pos h, register_problem_empty]
    simp [h]
  · rw [if_neg h, if_neg h]
    simp [h]

theorem consider_includes_empty (fname : Str) (include_count : Nat) :
    consider_includes emptyVault fname include_count =
      (decide (MAX_INCLUDE_COUNT < include_count),
       if MAX_INCLUDE_COUNT < include_count then
         [IncludeCountProblem fname include_count] else [],
       emptyVault) := by
  unfold consider_includes
  by_cases h : MAX_INCLUDE_COUNT < include_count
  · rw [if_pos h, if_pos h, register_problem_empty]
    simp [h]
  · rw [if_neg h, if_neg h]
    simp [h]

theorem consider_function_size_empty (fname : Str)
    (function_lines : List (Str × Nat)) :
    consider_function_size emptyVault fname function_lines =
      (function_lines.any (fun nl => decide (MAX_FUNCTION_SIZE < nl.2)),
       (function_lines.filter (fun nl => decide (MAX_FUNCTION_SIZE < nl.2))).map
         (fun nl => FunctionSizeProblem (fname ++ ':' :: nl.1 ++ "()".data) nl.2),
       emptyVault) := by
  rw [consider_function_size_spec]
  simp only [register_problem_empty, Bool.and_true]
  rw [flatten_map_singleton (fun nl : Str × Nat =>
    FunctionSizeProblem (fname ++ ':' :: nl.1 ++ "()".data) nl.2)]

theorem pyStartswith_nil (s : Str) : pyStartswith s [] = true := by
  cases s <;> rfl

/-- C7: scanning a file against an empty baseline constructs, registers and
reports exactly one Problem per metric that strictly exceeds its threshold —
file size > 3000, include count > 50, and one separate Problem per function
with more than 100 lines; a metric exactly at its threshold yields no
Problem. -/
theorem c7_threshold_strictness (fname : Str) (file_size include_count : Nat)
    (function_lines : List (Str × Nat)) :
    consider_metrics_for_file [] emptyVault fname file_size include_count
        function_lines =
      (decide (MAX_FILE_SIZE < file_size) ||
        decide (MAX_INCLUDE_COUNT < include_count) ||
        function_lines.any (fun nl => decide (MAX_FUNCTION_SIZE < nl.2)),
       (if MAX_FILE_SIZE < file_size then [FileSizeProblem fname file_size]
        else []) ++
       (if MAX_INCLUDE_COUNT < include_count then
          [IncludeCountProblem fname include_count] else []) ++
       (function_lines.filter (fun nl => decide (MAX_FUNCTION_SIZE < nl.2))).map
         (fun nl => FunctionSizeProblem (fname ++ ':' :: nl.1 ++ "()".data) nl.2),
       emptyVault) := by
  rw [consider_metrics_decomp]
  have hf : (if pyStartswith fname ([] : Str) then
      fname.drop ([] : Str).length else fname) = fname := by
    rw [if_pos (pyStartswith_nil fname)]
    simp
  rw [hf, consider_file_size_empty, consider_includes_empty,
    consider_function_size_empty]

/-- C10: evaluation of the three metrics never short-circuits: the per-file
scan always evaluates file size, then include count, then every oversized
function against the same vault, concatenating all their reports even when an
earlier metric already returned a new-issue result; and `consider_function_size`
keeps iterating and registering after the first oversized function. -/
theorem c10_no_short_circuit (topdir : Str) (v : ProblemVault) (fname : Str)
    (file_size include_count : Nat) (function_lines : List (Str × Nat)) :
    (consider_metrics_for_file topdir v fname file_size include_count
        function_lines =
      ((consider_file_size v
          (if pyStartswith fname topdir then fname.drop topdir.length else fname)
          file_size).1 ||
       (consider_includes v
          (if pyStartswith fname topdir then fname.drop topdir.length else fname)
          include_count).1 ||
       (consider_function_size v
          (if pyStartswith fname topdir then fname.drop topdir.length else fname)
          function_lines).1,
       (consider_file_size v
          (if pyStartswith fname topdir then fname.drop topdir.length else fname)
          file_size).2.1 ++
       (consider_includes v
          (if pyStartswith fname topdir then fname.drop topdir.length else fname)
          include_count).2.1 ++
       (consider_function_size v
          (if pyStartswith fname topdir then fname.drop topdir.length else fname)
          function_lines).2.1,
       v)) ∧
    (consider_function_size v fname function_lines).2.1 =
      ((function_lines.filter (fun nl => decide (MAX_FUNCTION_SIZE < nl.2))).map
        (fun nl => (v.register_problem
          (FunctionSizeProblem (fname ++ ':' :: nl.1 ++ "()".data) nl.2)).2.1)).flatten :=
  ⟨consider_metrics_decomp topdir v fname file_size include_count function_lines,
   by rw [consider_function_size_spec]⟩
